import Mathlib

/-!
Shallow embedding of the `otp-field` widget (TypeScript sources
`src/ts/components/field.ts`, `src/ts/components/types.ts`,
`src/ts/utils/regex.ts`, `src/ts/utils/types.ts`) and proofs about it.

Modelling conventions:
* JS strings are Lean `String`s; per-character work goes through `String.data`.
* A regular expression of the shape `/[^class]/g` is embedded by its semantic
  content: the predicate on characters telling whether the character *matches*
  the regex (i.e. is outside the class).  `value.replace(re, '')` for such a
  regex removes exactly the matching characters, which is `regexReplaceEmpty`.
* TS enum `OTPValueType` has numeric enumerants `NUMERIC = 0 ..
  ALPHANUMERIC_UPPER = 6`; an enumerant is embedded as a `Nat`, so that
  out-of-range enumerant values (`7, 8, ...`) can be passed to the switch.
* Thrown JS exceptions are `Except.error` with the thrown message.
* The mounted DOM state of a built field is `OTPFieldState`: the ordered list
  of box contents (box `i` holds `boxes[i]`), the instance's stored
  `fieldValue`, and which box (if any) currently has focus.
* Box indices are `Int` (JS numbers): the paste handler can compute the
  index `-1`, and `getBoxAtIndex` then fails exactly as
  `document.getElementById` returning `null` does in the source.
-/

namespace OTPFieldSpec

/-- Character class `0-9` (the chars the regex class `[^0-9]` excludes). -/
def isDigitChar (c : Char) : Bool := '0' ≤ c && c ≤ '9'

/-- Character class `A-Z`. -/
def isUpperChar (c : Char) : Bool := 'A' ≤ c && c ≤ 'Z'

/-- Character class `a-z`. -/
def isLowerChar (c : Char) : Bool := 'a' ≤ c && c ≤ 'z'

/-- The regex `/[^0-9]/g`: matches any character that is not a digit. -/
def reNotNumeric : Char → Bool := fun c => !(isDigitChar c)

/-- The regex `/[^A-Za-z]/g`. -/
def reNotAlphabetic : Char → Bool := fun c => !(isUpperChar c || isLowerChar c)

/-- The regex `/[^a-z]/g`. -/
def reNotAlphabeticLower : Char → Bool := fun c => !(isLowerChar c)

/-- The regex `/[^A-Z]/g`. -/
def reNotAlphabeticUpper : Char → Bool := fun c => !(isUpperChar c)

/-- The regex `/[^A-Za-z0-9]/g`. -/
def reNotAlphanumeric : Char → Bool :=
  fun c => !(isUpperChar c || isLowerChar c || isDigitChar c)

/-- The regex `/[^a-z0-9]/g`. -/
def reNotAlphanumericLower : Char → Bool :=
  fun c => !(isLowerChar c || isDigitChar c)

/-- The regex `/[^A-Z0-9]/g`. -/
def reNotAlphanumericUpper : Char → Bool :=
  fun c => !(isUpperChar c || isDigitChar c)

/-- `value.replace(re, '')` for a global character-class regex `re`:
removes every character matching `re`, keeping the rest in order. -/
def regexReplaceEmpty (re : Char → Bool) (value : String) : String :=
  String.mk (value.data.filter (fun c => !(re c)))

/-- `getOTPRegexForValueType` from `src/ts/utils/regex.ts`: the switch over the
`OTPValueType` enumerant (embedded as its numeric value `NUMERIC = 0`,
`ALPHABETIC = 1`, `ALPHABETIC_LOWER = 2`, `ALPHABETIC_UPPER = 3`,
`ALPHANUMERIC = 4`, `ALPHANUMERIC_LOWER = 5`, `ALPHANUMERIC_UPPER = 6`);
any other enumerant value falls to the default case and throws. -/
def getOTPRegexForValueType (valueType : Nat) : Except String (Char → Bool) :=
  match valueType with
  | 0 => .ok reNotNumeric
  | 1 => .ok reNotAlphabetic
  | 2 => .ok reNotAlphabeticLower
  | 3 => .ok reNotAlphabeticUpper
  | 4 => .ok reNotAlphanumeric
  | 5 => .ok reNotAlphanumericLower
  | 6 => .ok reNotAlphanumericUpper
  | _ => .error "Invalid OTP field value type"

/-- `OTPFieldConfig` from `src/ts/components/types.ts`.  `namespace` is a Lean
keyword, so the field is called `nspace`.  `onPasteBlur` and `valueType` are
`Option`s because `field.ts` tests them against `undefined` at runtime; a
custom regex (used verbatim by `getOtpRegex` when present) is embedded by its
matched-character predicate, which is all any claim here needs of it. -/
structure OTPFieldConfig where
  nspace : String
  boxCount : Int
  onPasteBlur : Option Bool := none
  valueType : Option Nat := none
  customRegex : Option (Char → Bool) := none

/-- The `OTPField` class instance state that exists independently of the DOM:
the stored configuration and the private `fieldValue` (initialised to `''`). -/
structure OTPField where
  config : OTPFieldConfig
  fieldValue : String := ""

/-- The `OTPField` constructor: throws when `config.boxCount <= 0`, otherwise
stores the configuration (the `fieldValue` initialiser gives `''`). -/
def OTPFieldCtor (config : OTPFieldConfig) : Except String OTPField :=
  if config.boxCount ≤ 0 then
    .error "Invalid config box count must be grater than zero."
  else
    .ok { config := config }

/-- The `value` getter: `return this.fieldValue`.  It takes the (possibly
absent) mounted DOM state as an argument only to record that the source never
reads it. -/
def valueGetter (f : OTPField) (_dom : Option (List String)) : String :=
  f.fieldValue

/-- The `element` getter: `document.getElementById(this.id)` followed by a
null check; `dom` is the mounted container element, if any. -/
def elementGetter (dom : Option (List String)) : Except String (List String) :=
  match dom with
  | some elem => .ok elem
  | none => .error "Element with ID not found in the DOM."

/-- `getOtpRegex` from `field.ts`: the custom regex when configured, else the
table lookup on `valueType ?? OTPValueType.NUMERIC`. -/
def getOtpRegex (cfg : OTPFieldConfig) : Except String (Char → Bool) :=
  match cfg.customRegex with
  | some re => .ok re
  | none => getOTPRegexForValueType (cfg.valueType.getD 0)

/-- `applyRegex` from `field.ts`: `value.replace(this.getOtpRegex(), '')`. -/
def applyRegex (cfg : OTPFieldConfig) (value : String) : Except String String :=
  (getOtpRegex cfg).map (fun re => regexReplaceEmpty re value)

/-- JS `parseInt(str, 10)`: skip leading whitespace and an optional sign, then
read the longest prefix of decimal digits; `none` models the `NaN` result when
no digit is found. -/
def parseIntBase10 (str : String) : Option Int :=
  let digitsVal : List Char → Option Nat := fun cs =>
    let ds := cs.takeWhile isDigitChar
    if ds.isEmpty then none
    else some (ds.foldl (fun a c => a * 10 + (c.toNat - '0'.toNat)) 0)
  let cs := str.data.dropWhile (fun c => c = ' ' || c = '\t' || c = '\n' || c = '\r')
  match cs with
  | '-' :: rest => (digitsVal rest).map (fun n => -(n : Int))
  | '+' :: rest => (digitsVal rest).map (fun n => (n : Int))
  | _ => (digitsVal cs).map (fun n => (n : Int))

/-- `getBoxIndex` from `field.ts`, applied to the box's `data-index` attribute
(`none` when the attribute is absent).  The source does
`if (dataIndex) { return parseInt(dataIndex, 10); } throw ...`:
a missing or empty (falsy) attribute throws, any other value is handed to
`parseInt`, whose `NaN` result (`Except.ok none`) is returned, not thrown. -/
def getBoxIndex (dataIndex : Option String) : Except String (Option Int) :=
  match dataIndex with
  | some str =>
      if str ≠ "" then .ok (parseIntBase10 str)
      else .error "Unable to get `data-index` attribute for box"
  | none => .error "Unable to get `data-index` attribute for box"

/-- The mounted DOM state of a built field: the contents of the boxes in index
order, the instance's stored `fieldValue`, and the index of the box that
currently has focus (`none` when no box is focused). -/
structure OTPFieldState where
  boxes : List String
  fieldValue : String
  focusIdx : Option Int
deriving DecidableEq

/-- `getBoxAtIndex` from `field.ts`: `document.getElementById` on the derived
box id finds a box exactly when the index is one of the built boxes; otherwise
the null check throws.  Returns the index as a list position. -/
def getBoxAtIndex (s : OTPFieldState) (index : Int) : Except String Nat :=
  if 0 ≤ index ∧ index < (s.boxes.length : Int) then .ok index.toNat
  else .error "Unable to get box at index"

/-- `setBoxValue` from `field.ts`: look the box up, then assign its value. -/
def setBoxValue (s : OTPFieldState) (index : Int) (value : String) :
    Except String OTPFieldState :=
  (getBoxAtIndex s index).map (fun n => { s with boxes := s.boxes.set n value })

/-- `getBoxValue` from `field.ts`: look the box up, then read its value. -/
def getBoxValue (s : OTPFieldState) (index : Int) : Except String String :=
  (getBoxAtIndex s index).map (fun n => s.boxes.getD n "")

/-- `focusBox` from `field.ts`: look the box up, then call `.focus()` on it. -/
def focusBox (s : OTPFieldState) (index : Int) : Except String OTPFieldState :=
  (getBoxAtIndex s index).map (fun _ => { s with focusIdx := some index })

/-- `updateValue` from `field.ts`: concatenate the box values for indices
`0 .. boxCount-1` and store the result in `fieldValue`. -/
def updateValue (cfg : OTPFieldConfig) (s : OTPFieldState) :
    Except String OTPFieldState :=
  ((List.range cfg.boxCount.toNat).foldlM
      (fun acc (i : Nat) => (getBoxValue s (i : Int)).map (fun v => acc ++ v)) "").map
    (fun concatenatedValue => { s with fieldValue := concatenatedValue })

/-- The scan inside `focus()`: walk the given indices in order and return the
first one whose box value is `''` (reading a box can throw, as in the source). -/
def firstEmptyBox (s : OTPFieldState) : List Nat → Except String (Option Nat)
  | [] => .ok none
  | i :: rest => do
      let v ← getBoxValue s (i : Int)
      if v = "" then .ok (some i) else firstEmptyBox s rest

/-- `focus()` from `field.ts`: `focusBoxIndex` starts at `boxCount - 1`, the
loop replaces it by the first empty box's index and breaks; then `focusBox`. -/
def fieldFocus (cfg : OTPFieldConfig) (s : OTPFieldState) :
    Except String OTPFieldState := do
  let r ← firstEmptyBox s (List.range cfg.boxCount.toNat)
  let focusBoxIndex : Int :=
    match r with
    | some i => (i : Int)
    | none => cfg.boxCount - 1
  focusBox s focusBoxIndex

/-- `clear()` from `field.ts`: set every box in `0 .. boxCount-1` to `''`,
reset `fieldValue` to `''`, focus box `0`. -/
def fieldClear (cfg : OTPFieldConfig) (s : OTPFieldState) :
    Except String OTPFieldState := do
  let s ← (List.range cfg.boxCount.toNat).foldlM
      (fun st (i : Nat) => setBoxValue st (i : Int) "") s
  let s := { s with fieldValue := "" }
  focusBox s 0

/-- JS `v[i]` on a string, as the single-character string it yields for an
in-range index (out of range, the source would pass `undefined` on to
`setBoxValue`; the paste loop never does). -/
def strCharAt (v : String) (i : Nat) : String :=
  String.mk ((v.data.drop i).take 1)

/-- `onBoxPaste` from `field.ts`, on a built field.  `currentBoxIndex` is
`getBoxIndex(e.target)`, i.e. the pasted-into box's `data-index`;
`clipboardText` is `e.clipboardData.getData('text')`.  Steps, in source
order: filter the clipboard text, compute
`maxLength = min(boxCount - currentBoxIndex, pastedValue.length)`, write
`pastedValue[i]` into box `currentBoxIndex + i` for `0 ≤ i < maxLength`,
then blur the target (when `onPasteBlur` is `true` or `undefined`) or focus
box `currentBoxIndex + maxLength - 1`, and finally `updateValue()`. -/
def onBoxPaste (cfg : OTPFieldConfig) (s : OTPFieldState)
    (currentBoxIndex : Int) (clipboardText : String) :
    Except String OTPFieldState := do
  let pastedValue ← applyRegex cfg clipboardText
  let maxLength : Int :=
    min (cfg.boxCount - currentBoxIndex) (pastedValue.length : Int)
  let s ← (List.range maxLength.toNat).foldlM
      (fun st (i : Nat) => setBoxValue st (currentBoxIndex + (i : Int))
        (strCharAt pastedValue i)) s
  let s ←
    if cfg.onPasteBlur = some true ∨ cfg.onPasteBlur = none then
      pure { s with focusIdx := none }
    else
      focusBox s (currentBoxIndex + maxLength - 1)
  updateValue cfg s

/-- Whether an `Except` computation returned normally (did not throw). -/
def exceptIsOk : Except ε α → Bool
  | .ok _ => true
  | .error _ => false

/-! Helper lemmas about the `Except` monad and the box accessors. -/

theorem ok_bind (a : α) (g : α → Except ε β) :
    (Except.ok a : Except ε α) >>= g = g a := rfl

theorem error_bind (e : ε) (g : α → Except ε β) :
    (Except.error e : Except ε α) >>= g = .error e := rfl

theorem ok_map (f : α → β) (a : α) :
    (Except.ok a : Except ε α).map f = .ok (f a) := rfl

theorem getBoxAtIndex_eq_ok (s : OTPFieldState) (idx : Int)
    (h₀ : 0 ≤ idx) (h₁ : idx < (s.boxes.length : Int)) :
    getBoxAtIndex s idx = .ok idx.toNat := by
  unfold getBoxAtIndex
  rw [if_pos ⟨h₀, h₁⟩]

theorem getBoxAtIndex_eq_error (s : OTPFieldState) (idx : Int)
    (h : ¬(0 ≤ idx ∧ idx < (s.boxes.length : Int))) :
    getBoxAtIndex s idx = .error "Unable to get box at index" := by
  unfold getBoxAtIndex
  rw [if_neg h]

theorem getBoxValue_ok (s : OTPFieldState) (i : Nat) (h : i < s.boxes.length) :
    getBoxValue s (i : Int) = .ok (s.boxes.getD i "") := by
  unfold getBoxValue
  rw [getBoxAtIndex_eq_ok s _ (by omega) (by omega)]
  simp [Except.map]

theorem setBoxValue_ok (s : OTPFieldState) (i : Nat) (v : String)
    (h : i < s.boxes.length) :
    setBoxValue s (i : Int) v = .ok { s with boxes := s.boxes.set i v } := by
  unfold setBoxValue
  rw [getBoxAtIndex_eq_ok s _ (by omega) (by omega)]
  simp [Except.map]

theorem focusBox_ok (s : OTPFieldState) (idx : Int)
    (h₀ : 0 ≤ idx) (h₁ : idx < (s.boxes.length : Int)) :
    focusBox s idx = .ok { s with focusIdx := some idx } := by
  unfold focusBox
  rw [getBoxAtIndex_eq_ok s idx h₀ h₁]
  simp [Except.map]

theorem focusBox_error (s : OTPFieldState) (idx : Int)
    (h : ¬(0 ≤ idx ∧ idx < (s.boxes.length : Int))) :
    focusBox s idx = .error "Unable to get box at index" := by
  unfold focusBox
  rw [getBoxAtIndex_eq_error s idx h]
  simp [Except.map]

theorem applyRegex_eq (cfg : OTPFieldConfig) (re : Char → Bool) (t : String)
    (hre : getOtpRegex cfg = .ok re) :
    applyRegex cfg t = .ok (regexReplaceEmpty re t) := by
  unfold applyRegex
  rw [hre]
  rfl

theorem applyRegex_err (cfg : OTPFieldConfig) (t : String) (e : String)
    (hre : getOtpRegex cfg = .error e) :
    applyRegex cfg t = .error e := by
  unfold applyRegex
  rw [hre]
  rfl

theorem OTPFieldCtor_err (cfg : OTPFieldConfig) (h : cfg.boxCount ≤ 0) :
    OTPFieldCtor cfg =
      .error "Invalid config box count must be grater than zero." := by
  unfold OTPFieldCtor
  rw [if_pos h]

theorem OTPFieldCtor_ok (cfg : OTPFieldConfig) (h : 0 < cfg.boxCount) :
    OTPFieldCtor cfg = .ok { config := cfg, fieldValue := "" } := by
  unfold OTPFieldCtor
  rw [if_neg (by omega)]

theorem getOTPRegexForValueType_invalid (valueType : Nat) (h : 7 ≤ valueType) :
    getOTPRegexForValueType valueType = .error "Invalid OTP field value type" := by
  obtain ⟨m, rfl⟩ : ∃ m, valueType = m + 7 := ⟨valueType - 7, by omega⟩
  rfl

theorem getOtpRegex_invalid (cfg : OTPFieldConfig) (v : Nat)
    (hcr : cfg.customRegex = none) (hvt : cfg.valueType = some v) (h : 7 ≤ v) :
    getOtpRegex cfg = .error "Invalid OTP field value type" := by
  unfold getOtpRegex
  rw [hcr, hvt]
  exact getOTPRegexForValueType_invalid v h

/-- C4: the constructor throws a construction error exactly when the
configuration's `boxCount` is `≤ 0`; for every positive `boxCount` it returns
normally, and the produced instance is nothing but the stored configuration
together with the initial empty `fieldValue` (the embedding of the
constructor is a pure function of the configuration: it touches no DOM and
mutates nothing else). -/
theorem ctor_boxCount_validation (cfg : OTPFieldConfig) :
    (cfg.boxCount ≤ 0 →
      OTPFieldCtor cfg =
        .error "Invalid config box count must be grater than zero.") ∧
    (0 < cfg.boxCount →
      OTPFieldCtor cfg = .ok { config := cfg, fieldValue := "" }) :=
  ⟨OTPFieldCtor_err cfg, OTPFieldCtor_ok cfg⟩

/-- Witness for C4 at `boxCount = 0` and `boxCount = 6`. -/
theorem ctor_boxCount_validation_witness :
    OTPFieldCtor ⟨"otp", 0, none, none, none⟩ =
      .error "Invalid config box count must be grater than zero." ∧
    OTPFieldCtor ⟨"otp", 6, none, none, none⟩ =
      .ok { config := ⟨"otp", 6, none, none, none⟩, fieldValue := "" } :=
  ⟨(ctor_boxCount_validation ⟨"otp", 0, none, none, none⟩).1 (by decide),
   (ctor_boxCount_validation ⟨"otp", 6, none, none, none⟩).2 (by decide)⟩

/-- C2: the filter selected for each of the seven value-type enumerants keeps
exactly the specified character class (in order) and drops everything else;
any enumerant value outside the seven makes the selection throw the
invalid-configuration error; and applying the filter returns normally exactly
when the pattern selection itself does (filtering never throws on its own). -/
theorem valueType_filter_table :
    (∀ s : String, (getOTPRegexForValueType 0).map (fun re => regexReplaceEmpty re s)
        = .ok (String.mk (s.data.filter (fun c => isDigitChar c)))) ∧
    (∀ s : String, (getOTPRegexForValueType 1).map (fun re => regexReplaceEmpty re s)
        = .ok (String.mk (s.data.filter (fun c => isUpperChar c || isLowerChar c)))) ∧
    (∀ s : String, (getOTPRegexForValueType 2).map (fun re => regexReplaceEmpty re s)
        = .ok (String.mk (s.data.filter (fun c => isLowerChar c)))) ∧
    (∀ s : String, (getOTPRegexForValueType 3).map (fun re => regexReplaceEmpty re s)
        = .ok (String.mk (s.data.filter (fun c => isUpperChar c)))) ∧
    (∀ s : String, (getOTPRegexForValueType 4).map (fun re => regexReplaceEmpty re s)
        = .ok (String.mk (s.data.filter
            (fun c => isUpperChar c || isLowerChar c || isDigitChar c)))) ∧
    (∀ s : String, (getOTPRegexForValueType 5).map (fun re => regexReplaceEmpty re s)
        = .ok (String.mk (s.data.filter (fun c => isLowerChar c || isDigitChar c)))) ∧
    (∀ s : String, (getOTPRegexForValueType 6).map (fun re => regexReplaceEmpty re s)
        = .ok (String.mk (s.data.filter (fun c => isUpperChar c || isDigitChar c)))) ∧
    (∀ valueType : Nat, 7 ≤ valueType →
        getOTPRegexForValueType valueType = .error "Invalid OTP field value type") ∧
    (∀ (cfg : OTPFieldConfig) (s : String),
        exceptIsOk (applyRegex cfg s) = exceptIsOk (getOtpRegex cfg)) := by
  refine ⟨?_, ?_, ?_, ?_, ?_, ?_, ?_, getOTPRegexForValueType_invalid, ?_⟩
  · intro s
    simp [getOTPRegexForValueType, Except.map, regexReplaceEmpty, reNotNumeric,
      Bool.not_not]
  · intro s
    simp [getOTPRegexForValueType, Except.map, regexReplaceEmpty, reNotAlphabetic,
      Bool.not_not]
  · intro s
    simp [getOTPRegexForValueType, Except.map, regexReplaceEmpty,
      reNotAlphabeticLower, Bool.not_not]
  · intro s
    simp [getOTPRegexForValueType, Except.map, regexReplaceEmpty,
      reNotAlphabeticUpper, Bool.not_not]
  · intro s
    simp [getOTPRegexForValueType, Except.map, regexReplaceEmpty,
      reNotAlphanumeric, Bool.not_not]
  · intro s
    simp [getOTPRegexForValueType, Except.map, regexReplaceEmpty,
      reNotAlphanumericLower, Bool.not_not]
  · intro s
    simp [getOTPRegexForValueType, Except.map, regexReplaceEmpty,
      reNotAlphanumericUpper, Bool.not_not]
  · intro cfg s
    unfold applyRegex
    cases h : getOtpRegex cfg <;> simp [Except.map, exceptIsOk]

/-- Witness for C2: the NUMERIC filter on `"a1b2c3"` and the invalid
enumerant `9`. -/
theorem valueType_filter_table_witness :
    (getOTPRegexForValueType 0).map (fun re => regexReplaceEmpty re "a1b2c3")
      = .ok "123" ∧
    getOTPRegexForValueType 9 = .error "Invalid OTP field value type" :=
  ⟨(valueType_filter_table.1 "a1b2c3").trans rfl,
   valueType_filter_table.2.2.2.2.2.2.2.1 9 (by decide)⟩

/-- C7: on a configuration without a custom pattern (hence using one of the
built-in value-type filters), `applyRegex` is idempotent: if filtering `s`
yields `t`, then filtering `t` yields `t` again. -/
theorem applyRegex_idempotent (cfg : OTPFieldConfig)
    (hcr : cfg.customRegex = none) (s t : String)
    (hs : applyRegex cfg s = .ok t) :
    applyRegex cfg t = .ok t := by
  cases hre : getOtpRegex cfg with
  | error e =>
      rw [applyRegex_err cfg s e hre] at hs
      exact absurd hs (by simp)
  | ok re =>
      rw [applyRegex_eq cfg re s hre] at hs
      injection hs with h
      subst h
      rw [applyRegex_eq cfg re _ hre]
      congr 1
      unfold regexReplaceEmpty
      simp [List.filter_filter]

/-- Witness for C7: NUMERIC filtering of `"a1b2c3"` gives `"123"`, and
filtering `"123"` again gives `"123"`. -/
theorem applyRegex_idempotent_witness :
    applyRegex ⟨"otp", 6, none, none, none⟩ "a1b2c3" = .ok "123" ∧
    applyRegex ⟨"otp", 6, none, none, none⟩ "123" = .ok "123" := by
  have h1 : applyRegex ⟨"otp", 6, none, none, none⟩ "a1b2c3" = .ok "123" := by
    rfl
  exact ⟨h1, applyRegex_idempotent ⟨"otp", 6, none, none, none⟩ rfl "a1b2c3" "123" h1⟩

/-- C8 (code-bug evidence): resolving a box index from `data-index` throws
only when the attribute is missing (or empty, hence falsy); a non-numeric
value such as `"abc"` does NOT throw a parse error — `parseInt` yields `NaN`
(modelled `none`) and `getBoxIndex` returns it, contradicting both the claim
and the function's own doc comment (`@throws ... if the data-index attribute
is missing or cannot be parsed`).  A numeric attribute decodes normally. -/
theorem getBoxIndex_nonnumeric_no_throw :
    getBoxIndex (some "abc") = .ok none ∧
    getBoxIndex none = .error "Unable to get `data-index` attribute for box" ∧
    getBoxIndex (some "7") = .ok (some 7) := by
  refine ⟨rfl, rfl, rfl⟩

/-- C9: construction validates only `boxCount`.  Any configuration with
positive `boxCount` — including an empty namespace string and an out-of-range
`valueType` enumerant — constructs successfully; the invalid value type is
rejected only later, when the paste handler first selects the filter. -/
theorem construction_defers_valueType_validation :
    (∀ cfg : OTPFieldConfig, 0 < cfg.boxCount →
        OTPFieldCtor cfg = .ok { config := cfg, fieldValue := "" }) ∧
    (∀ (cfg : OTPFieldConfig) (v : Nat), cfg.customRegex = none →
        cfg.valueType = some v → 7 ≤ v →
        ∀ (s : OTPFieldState) (i : Int) (t : String),
          onBoxPaste cfg s i t = .error "Invalid OTP field value type") := by
  refine ⟨OTPFieldCtor_ok, ?_⟩
  intro cfg v hcr hvt hv s i t
  unfold onBoxPaste
  rw [applyRegex_err cfg t _ (getOtpRegex_invalid cfg v hcr hvt hv)]
  rfl

/-- Witness for C9: a configuration with empty namespace and `valueType = 99`
constructs, and pasting with it throws the invalid-value-type error. -/
theorem construction_defers_valueType_validation_witness :
    OTPFieldCtor ⟨"", 4, none, some 99, none⟩ =
      .ok { config := ⟨"", 4, none, some 99, none⟩, fieldValue := "" } ∧
    onBoxPaste ⟨"", 4, none, some 99, none⟩ ⟨["", "", "", ""], "", none⟩ 0 "1"
      = .error "Invalid OTP field value type" :=
  ⟨construction_defers_valueType_validation.1 _ (by decide),
   construction_defers_valueType_validation.2 _ 99 rfl rfl (by decide) _ _ _⟩

/-- C10: the `value` getter is a total function of the instance's stored
`fieldValue` alone — it gives the same answer whatever the mounted DOM state
is (in particular before `build()` or after `destroy()`), it is `""` on a
freshly constructed instance, and — unlike the `element` getter, which fails
with a lookup error when the container is not in the DOM — it never fails. -/
theorem value_getter_total :
    (∀ (f : OTPField) (d₁ d₂ : Option (List String)),
        valueGetter f d₁ = valueGetter f d₂) ∧
    (∀ (cfg : OTPFieldConfig) (f : OTPField) (d : Option (List String)),
        OTPFieldCtor cfg = .ok f → valueGetter f d = "") ∧
    elementGetter none = .error "Element with ID not found in the DOM." := by
  refine ⟨fun f d₁ d₂ => rfl, ?_, rfl⟩
  intro cfg f d h
  unfold OTPFieldCtor at h
  split at h
  · exact absurd h (by simp)
  · cases h; rfl

/-- Witness for C10: a freshly constructed instance reads `""` even with a
mounted DOM present. -/
theorem value_getter_total_witness :
    valueGetter ⟨⟨"otp", 6, none, none, none⟩, ""⟩ (some ["1", "2"]) = "" :=
  value_getter_total.2.1 ⟨"otp", 6, none, none, none⟩ _ (some ["1", "2"]) rfl

/-! The `updateValue` and `clear` loops, characterised. -/

theorem pure_bind_ex (a : α) (g : α → Except ε β) :
    (pure a : Except ε α) >>= g = g a := rfl

theorem pure_eq_ok (a : α) : (pure a : Except ε α) = .ok a := rfl

theorem updateValue_fold (s : OTPFieldState) :
    ∀ (m : Nat), m ≤ s.boxes.length → ∀ acc : String,
      (List.range m).foldlM
          (fun acc (i : Nat) => (getBoxValue s (i : Int)).map (fun v => acc ++ v)) acc
        = .ok ((s.boxes.take m).foldl (· ++ ·) acc) := by
  intro m
  induction m with
  | zero => intro _ acc; rfl
  | succ k ih =>
      intro hk acc
      have hkl : k < s.boxes.length := by omega
      rw [List.range_succ, List.foldlM_append, ih (by omega) acc, ok_bind]
      simp only [List.foldlM_cons, List.foldlM_nil, getBoxValue_ok s k hkl,
        Except.map, ok_bind]
      rw [List.getD_eq_getElem s.boxes "" hkl, List.take_succ,
        List.getElem?_eq_getElem hkl]
      simp only [Option.toList_some, List.foldl_append, List.foldl_cons,
        List.foldl_nil, pure_eq_ok]

theorem updateValue_ok (cfg : OTPFieldConfig) (s : OTPFieldState)
    (hlen : s.boxes.length = cfg.boxCount.toNat) :
    updateValue cfg s = .ok { s with fieldValue := s.boxes.foldl (· ++ ·) "" } := by
  unfold updateValue
  rw [← hlen, updateValue_fold s s.boxes.length le_rfl ""]
  simp [Except.map, List.take_length]

theorem clearLoop (s : OTPFieldState) :
    ∀ k, k ≤ s.boxes.length →
      (List.range k).foldlM (fun st (i : Nat) => setBoxValue st (i : Int) "") s
        = .ok { s with boxes := List.replicate k "" ++ s.boxes.drop k } := by
  intro k
  induction k with
  | zero => intro _; rfl
  | succ m ih =>
      intro hk
      have hml : m < s.boxes.length := by omega
      rw [List.range_succ, List.foldlM_append, ih (by omega), ok_bind]
      simp only [List.foldlM_cons, List.foldlM_nil]
      rw [setBoxValue_ok _ m ""
        (by simp [List.length_replicate, List.length_drop]; omega)]
      simp only [ok_bind, pure_eq_ok]
      congr 2
      rw [List.set_append, if_neg (by simp [List.length_replicate]),
        List.length_replicate, Nat.sub_self, List.drop_eq_getElem_cons hml,
        List.set_cons_zero, List.replicate_succ']
      rw [List.append_assoc, List.singleton_append]

/-- C6: on any built field (boxes list of length `boxCount`), `clear()`
produces exactly the state whose boxes are all `""`, whose aggregate
`fieldValue` is `""`, and whose focus is on box `0`. -/
theorem clear_resets (cfg : OTPFieldConfig) (s : OTPFieldState)
    (hlen : s.boxes.length = cfg.boxCount.toNat) (hbc : 0 < cfg.boxCount) :
    fieldClear cfg s =
      .ok { boxes := List.replicate cfg.boxCount.toNat "",
            fieldValue := "", focusIdx := some 0 } := by
  unfold fieldClear
  rw [clearLoop s cfg.boxCount.toNat (by omega), ok_bind]
  rw [← hlen, List.drop_length, List.append_nil]
  rw [focusBox_ok _ 0 (by omega) (by simp [List.length_replicate]; omega)]

/-- Witness for C6: clearing a populated 3-box field. -/
theorem clear_resets_witness :
    fieldClear ⟨"otp", 3, none, none, none⟩ ⟨["1", "2", "3"], "123", some 2⟩ =
      .ok { boxes := List.replicate (3 : Int).toNat "",
            fieldValue := "", focusIdx := some 0 } :=
  clear_resets ⟨"otp", 3, none, none, none⟩ ⟨["1", "2", "3"], "123", some 2⟩
    rfl (by decide)

/-! The `focus()` scan, characterised. -/

theorem find_range_first (p : Nat → Bool) :
    ∀ (n j : Nat), j < n → p j = true → (∀ k, k < j → p k = false) →
      (List.range n).find? p = some j := by
  intro n
  induction n with
  | zero => intro j hj _ _; omega
  | succ m ih =>
      intro j hj hpj hmin
      rw [List.range_succ, List.find?_append]
      rcases Nat.lt_or_ge j m with h | h
      · rw [ih j h hpj hmin]
        rfl
      · have hjm : j = m := by omega
        subst hjm
        have hnone : (List.range j).find? p = none := by
          rw [List.find?_eq_none]
          intro x hx
          rw [List.mem_range] at hx
          simp [hmin x hx]
        rw [hnone]
        simp [List.find?, hpj]

theorem firstEmptyBox_eq (s : OTPFieldState) :
    ∀ is : List Nat, (∀ i ∈ is, i < s.boxes.length) →
      firstEmptyBox s is
        = .ok (is.find? (fun i => decide (s.boxes.getD i "" = ""))) := by
  intro is
  induction is with
  | nil => intro _; rfl
  | cons i rest ih =>
      intro h
      have hi : i < s.boxes.length := h i (List.mem_cons_self i rest)
      unfold firstEmptyBox
      rw [getBoxValue_ok s i hi, ok_bind]
      by_cases hv : s.boxes.getD i "" = ""
      · rw [if_pos hv, List.find?_cons_of_pos rest (decide_eq_true hv)]
      · rw [if_neg hv, ih (fun j hj => h j (List.mem_cons_of_mem i hj)),
          List.find?_cons_of_neg rest (fun hpx => hv (of_decide_eq_true hpx))]

/-- C5: on any built field, `focus()` focuses the box at the smallest index
whose content is `""` (first conjunct: any index that is empty and has no
empty predecessor is the one focused); when no box in `[0, boxCount)` is
empty, it focuses box `boxCount - 1` (second conjunct). -/
theorem focus_first_empty (cfg : OTPFieldConfig) (s : OTPFieldState)
    (hlen : s.boxes.length = cfg.boxCount.toNat) (hbc : 0 < cfg.boxCount) :
    (∀ j : Nat, j < s.boxes.length → s.boxes.getD j "" = "" →
        (∀ k, k < j → s.boxes.getD k "" ≠ "") →
        fieldFocus cfg s = .ok { s with focusIdx := some (j : Int) }) ∧
    ((∀ k, k < s.boxes.length → s.boxes.getD k "" ≠ "") →
        fieldFocus cfg s = .ok { s with focusIdx := some (cfg.boxCount - 1) }) := by
  have hrange : ∀ i ∈ List.range cfg.boxCount.toNat, i < s.boxes.length := by
    intro i hi
    rw [List.mem_range] at hi
    omega
  constructor
  · intro j hj hempty hmin
    unfold fieldFocus
    rw [firstEmptyBox_eq s _ hrange, ok_bind]
    rw [find_range_first _ cfg.boxCount.toNat j (by omega) (decide_eq_true hempty)
      (fun k hk => decide_eq_false (hmin k hk))]
    exact focusBox_ok s (j : Int) (by omega) (by omega)
  · intro hall
    unfold fieldFocus
    rw [firstEmptyBox_eq s _ hrange, ok_bind]
    have hnone : (List.range cfg.boxCount.toNat).find?
        (fun i => decide (s.boxes.getD i "" = "")) = none := by
      rw [List.find?_eq_none]
      intro x hx
      rw [List.mem_range] at hx
      exact fun hpx => hall x (by omega) (of_decide_eq_true hpx)
    rw [hnone]
    exact focusBox_ok s (cfg.boxCount - 1) (by omega) (by omega)

/-- Witness for C5: on boxes `["1","2","","4","5","6"]` focus lands on box 2
(the first empty one); on a fully filled field it lands on box 5. -/
theorem focus_first_empty_witness :
    fieldFocus ⟨"otp", 6, none, none, none⟩
        ⟨["1", "2", "", "4", "5", "6"], "", none⟩ =
      .ok ⟨["1", "2", "", "4", "5", "6"], "", some ((2 : Nat) : Int)⟩ ∧
    fieldFocus ⟨"otp", 6, none, none, none⟩
        ⟨["1", "2", "3", "4", "5", "6"], "123456", none⟩ =
      .ok ⟨["1", "2", "3", "4", "5", "6"], "123456", some ((6 : Int) - 1)⟩ :=
  ⟨(focus_first_empty ⟨"otp", 6, none, none, none⟩
      ⟨["1", "2", "", "4", "5", "6"], "", none⟩ rfl (by decide)).1
      2 (by decide) rfl (by decide),
   (focus_first_empty ⟨"otp", 6, none, none, none⟩
      ⟨["1", "2", "3", "4", "5", "6"], "123456", none⟩ rfl (by decide)).2
      (by decide)⟩

/-! The paste-handler write loop, characterised. -/

theorem set_window_step (l : List String) (g : Nat → String) (b m : Nat)
    (hb : b ≤ l.length) (h : b + m < l.length) :
    (l.take b ++ (List.range m).map g ++ l.drop (b + m)).set (b + m) (g m)
      = l.take b ++ (List.range (m + 1)).map g ++ l.drop (b + (m + 1)) := by
  have hlenA : (l.take b).length = b := by rw [List.length_take]; omega
  have hlenB : ((List.range m).map g).length = m := by
    rw [List.length_map, List.length_range]
  have hlenAB : (l.take b ++ (List.range m).map g).length = b + m := by
    rw [List.length_append, hlenA, hlenB]
  rw [List.set_append, if_neg (by rw [hlenAB]; omega), hlenAB, Nat.sub_self]
  rw [List.drop_eq_getElem_cons h, List.set_cons_zero]
  rw [List.range_succ, List.map_append, show b + (m + 1) = b + m + 1 from by omega]
  simp [List.append_assoc]

theorem pasteLoop (f : String) (b : Nat) :
    ∀ (m : Nat) (s : OTPFieldState), b + m ≤ s.boxes.length →
      (List.range m).foldlM
          (fun st (i : Nat) => setBoxValue st ((b : Int) + (i : Int)) (strCharAt f i)) s
        = .ok { s with boxes :=
            s.boxes.take b ++ (List.range m).map (strCharAt f) ++ s.boxes.drop (b + m) } := by
  intro m
  induction m with
  | zero =>
      intro s hb
      simp only [List.range_zero, List.foldlM_nil, List.map_nil, List.append_nil,
        Nat.add_zero, List.take_append_drop, pure_eq_ok]
  | succ m ih =>
      intro s hb
      rw [List.range_succ, List.foldlM_append, ih s (by omega), ok_bind]
      simp only [List.foldlM_cons, List.foldlM_nil]
      rw [show (b : Int) + (m : Int) = ((b + m : Nat) : Int) from by push_cast; ring]
      rw [setBoxValue_ok _ (b + m) _ (by
        simp only [List.length_append, List.length_take, List.length_map,
          List.length_range, List.length_drop]
        omega)]
      simp only [pure_eq_ok, ok_bind]
      congr 2
      rw [set_window_step s.boxes (strCharAt f) b m (by omega) (by omega)]
      rw [List.range_succ]

/-- C1 (amended): for a paste of clipboard text `t` into box `i` of a built
field, with `f` the filtered text and
`n = min(boxCount - i, length f)`, the handler rewrites the boxes to
`take i ++ [f[0], ..., f[n-1]] ++ drop (i+n)` — the `n` filtered characters
land in boxes `i .. i+n-1` in order and every other box keeps its previous
content — and the resulting aggregate `fieldValue` is the recomputed
concatenation of the new box contents.  The corner hypothesis excludes the
one case in which the source instead throws before recomputing:
`onPasteBlur = false` with `i = 0` and `n = 0` (see the counterexample). -/
theorem paste_writes_window (cfg : OTPFieldConfig) (s : OTPFieldState) (i : Nat)
    (re : Char → Bool) (t : String)
    (hlen : s.boxes.length = cfg.boxCount.toNat)
    (hi : (i : Int) < cfg.boxCount)
    (hre : getOtpRegex cfg = .ok re)
    (hcorner : cfg.onPasteBlur = some false →
      0 < i ∨ 0 < min (cfg.boxCount.toNat - i) (regexReplaceEmpty re t).length) :
    ∃ s' : OTPFieldState,
      onBoxPaste cfg s (i : Int) t = .ok s' ∧
      s'.boxes = s.boxes.take i
          ++ (List.range (min (cfg.boxCount.toNat - i) (regexReplaceEmpty re t).length)).map
              (strCharAt (regexReplaceEmpty re t))
          ++ s.boxes.drop (i + min (cfg.boxCount.toNat - i) (regexReplaceEmpty re t).length) ∧
      s'.fieldValue = s'.boxes.foldl (· ++ ·) "" := by
  have hminInt : min (cfg.boxCount - (i : Int)) ((regexReplaceEmpty re t).length : Int)
      = ((min (cfg.boxCount.toNat - i) (regexReplaceEmpty re t).length : Nat) : Int) := by
    omega
  have hlenB : (s.boxes.take i
      ++ (List.range (min (cfg.boxCount.toNat - i) (regexReplaceEmpty re t).length)).map
          (strCharAt (regexReplaceEmpty re t))
      ++ s.boxes.drop
          (i + min (cfg.boxCount.toNat - i) (regexReplaceEmpty re t).length)).length
      = cfg.boxCount.toNat := by
    simp only [List.length_append, List.length_take, List.length_map,
      List.length_range, List.length_drop]
    omega
  unfold onBoxPaste
  rw [applyRegex_eq cfg re t hre, ok_bind]
  simp only [hminInt, Int.toNat_natCast]
  rw [pasteLoop (regexReplaceEmpty re t) i
    (min (cfg.boxCount.toNat - i) (regexReplaceEmpty re t).length) s (by omega), ok_bind]
  by_cases hblur : cfg.onPasteBlur = some true ∨ cfg.onPasteBlur = none
  · rw [if_pos hblur, pure_bind_ex, updateValue_ok cfg _ hlenB]
    exact ⟨_, rfl, rfl, rfl⟩
  · rw [if_neg hblur]
    have hob : cfg.onPasteBlur = some false := by
      rcases hop : cfg.onPasteBlur with _ | b
      · exact absurd (Or.inr hop) hblur
      · cases b
        · rfl
        · exact absurd (Or.inl hop) hblur
    have hpos := hcorner hob
    rw [focusBox_ok _ ((i : Int) +
        ((min (cfg.boxCount.toNat - i) (regexReplaceEmpty re t).length : Nat) : Int) - 1)
      (by omega) (by rw [hlenB]; omega), ok_bind, updateValue_ok cfg _ hlenB]
    exact ⟨_, rfl, rfl, rfl⟩

/-- C3 (amended): for a paste with `onPasteBlur = false` into box `i`, with
`n = min(boxCount - i, length f)` for filtered text `f`, the handler focuses
box `i + n - 1` — the last box written when `n ≥ 1`, but the box *before* the
paste target when `n = 0` (not the paste target itself, as claimed); and in
the remaining case `n = 0, i = 0` it does not focus anything but fails with
the box-lookup error for index `-1`. -/
theorem paste_focus_noblur (cfg : OTPFieldConfig) (s : OTPFieldState) (i : Nat)
    (re : Char → Bool) (t : String)
    (hlen : s.boxes.length = cfg.boxCount.toNat)
    (hi : (i : Int) < cfg.boxCount)
    (hre : getOtpRegex cfg = .ok re)
    (hblur : cfg.onPasteBlur = some false) :
    (0 < i ∨ 0 < min (cfg.boxCount.toNat - i) (regexReplaceEmpty re t).length →
      ∃ s' : OTPFieldState, onBoxPaste cfg s (i : Int) t = .ok s' ∧
        s'.focusIdx = some ((i : Int) +
          ((min (cfg.boxCount.toNat - i) (regexReplaceEmpty re t).length : Nat) : Int) - 1)) ∧
    (i = 0 → min (cfg.boxCount.toNat - i) (regexReplaceEmpty re t).length = 0 →
      onBoxPaste cfg s (i : Int) t = .error "Unable to get box at index") := by
  have hminInt : min (cfg.boxCount - (i : Int)) ((regexReplaceEmpty re t).length : Int)
      = ((min (cfg.boxCount.toNat - i) (regexReplaceEmpty re t).length : Nat) : Int) := by
    omega
  have hlenB : (s.boxes.take i
      ++ (List.range (min (cfg.boxCount.toNat - i) (regexReplaceEmpty re t).length)).map
          (strCharAt (regexReplaceEmpty re t))
      ++ s.boxes.drop
          (i + min (cfg.boxCount.toNat - i) (regexReplaceEmpty re t).length)).length
      = cfg.boxCount.toNat := by
    simp only [List.length_append, List.length_take, List.length_map,
      List.length_range, List.length_drop]
    omega
  constructor
  · intro hpos
    unfold onBoxPaste
    rw [applyRegex_eq cfg re t hre, ok_bind]
    simp only [hminInt, Int.toNat_natCast]
    rw [pasteLoop (regexReplaceEmpty re t) i
      (min (cfg.boxCount.toNat - i) (regexReplaceEmpty re t).length) s (by omega), ok_bind]
    rw [hblur, if_neg (by simp)]
    rw [focusBox_ok _ ((i : Int) +
        ((min (cfg.boxCount.toNat - i) (regexReplaceEmpty re t).length : Nat) : Int) - 1)
      (by omega) (by rw [hlenB]; omega), ok_bind, updateValue_ok cfg _ hlenB]
    exact ⟨_, rfl, rfl⟩
  · intro hi0 hn0
    unfold onBoxPaste
    rw [applyRegex_eq cfg re t hre, ok_bind]
    simp only [hminInt, Int.toNat_natCast]
    rw [pasteLoop (regexReplaceEmpty re t) i
      (min (cfg.boxCount.toNat - i) (regexReplaceEmpty re t).length) s (by omega), ok_bind]
    rw [hblur, if_neg (by simp)]
    rw [focusBox_error _ _ (by rw [hn0, hi0]; omega), error_bind]

/-- Counterexample to C1 as stated: pasting text that filters to nothing
(`"x"` under the default NUMERIC type) into box 0 of a 1-box field with
`onPasteBlur = false` makes the handler throw the box-lookup error for index
`-1` instead of returning and recomputing the aggregate — the stale
`fieldValue` `"stale"` is never recomputed (a recomputation would have stored
`""`, the concatenation of the all-empty boxes). -/
theorem paste_no_recompute_counterexample :
    onBoxPaste ⟨"ns", 1, some false, none, none⟩ ⟨[""], "stale", some 0⟩ 0 "x"
      = .error "Unable to get box at index" ∧
    exceptIsOk
      (onBoxPaste ⟨"ns", 1, some false, none, none⟩ ⟨[""], "stale", some 0⟩ 0 "x")
      = false :=
  ⟨rfl, rfl⟩

/-- Witness for C1 (amended), on the spec's own example: pasting `"12ab"`
(filtered: `"12"`) at box 4 of a 6-box NUMERIC field fills boxes 4 and 5 with
`"1"`,`"2"`, leaves boxes 0-3 untouched, and recomputes the aggregate. -/
theorem paste_writes_window_witness :
    ∃ s' : OTPFieldState,
      onBoxPaste ⟨"otp", 6, none, none, none⟩
          ⟨["7", "7", "7", "7", "x", "y"], "7777xy", some 4⟩ ((4 : Nat) : Int) "12ab"
        = .ok s' ∧
      s'.boxes = ["7", "7", "7", "7", "1", "2"] ∧
      s'.fieldValue = "777712" := by
  obtain ⟨s', h1, h2, h3⟩ :=
    paste_writes_window ⟨"otp", 6, none, none, none⟩
      ⟨["7", "7", "7", "7", "x", "y"], "7777xy", some 4⟩ 4 reNotNumeric "12ab"
      rfl (by decide) rfl (fun h => absurd h (by simp))
  refine ⟨s', h1, ?_, ?_⟩
  · rw [h2]; decide
  · rw [h3, h2]; decide

/-- Counterexample to C3 as stated: with `onPasteBlur = false`, pasting text
that filters to nothing (`n = 0`) into box 1 of a 2-box field focuses box 0,
not the paste target box 1 as the claim says. -/
theorem paste_focus_counterexample :
    onBoxPaste ⟨"ns", 2, some false, none, none⟩ ⟨["", ""], "", some 1⟩ 1 "x"
      = .ok ⟨["", ""], "", some 0⟩ ∧
    ¬ onBoxPaste ⟨"ns", 2, some false, none, none⟩ ⟨["", ""], "", some 1⟩ 1 "x"
      = .ok ⟨["", ""], "", some 1⟩ := by
  constructor
  · rfl
  · intro h
    rw [show onBoxPaste ⟨"ns", 2, some false, none, none⟩ ⟨["", ""], "", some 1⟩ 1 "x"
        = .ok (⟨["", ""], "", some 0⟩ : OTPFieldState) from rfl] at h
    simp at h

/-- Witness for C3 (amended), on the spec's example: with `onPasteBlur =
false`, pasting `"12ab"` at box 4 of a 6-box field lands focus on box 5, the
last box written. -/
theorem paste_focus_noblur_witness :
    ∃ s' : OTPFieldState,
      onBoxPaste ⟨"otp", 6, some false, none, none⟩
          ⟨["7", "7", "7", "7", "x", "y"], "7777xy", some 4⟩ ((4 : Nat) : Int) "12ab"
        = .ok s' ∧
      s'.focusIdx = some 5 := by
  obtain ⟨s', h1, h2⟩ :=
    (paste_focus_noblur ⟨"otp", 6, some false, none, none⟩
        ⟨["7", "7", "7", "7", "x", "y"], "7777xy", some 4⟩ 4 reNotNumeric "12ab"
        rfl (by decide) rfl rfl).1 (Or.inl (by decide))
  exact ⟨s', h1, by rw [h2]; decide⟩

end OTPFieldSpec
